import Mathlib

/-!
Verification of the `rhwy/Howto-vanillajs-webcomponents-tdd` components.

This file shallowly embeds the two web components of the repository:

* `RcTextArea` (`src/components/_walking_skeleton/…/text-area.js`): a
  character-counting textarea with a `max-chars` ceiling, a `limitReached`
  edge detector and an optional debounced localStorage persistence.
* `AgileVoting` (`src/components/agile-voting/agile-voting.js`): a voting
  widget with a form view and an info view toggled on `value`.

JavaScript strings are modelled as `List Char`, attribute maps as
`Option (List Char)` fields (absent attribute = `none`), the single
localStorage slot under the configured `storage-key` as `Option (List Char)`,
and the debounce timer as a `pendingSave : Bool` flag that a `debounceFire`
action discharges.  Events dispatched by an operation are returned as an
explicit list.
-/

namespace WebComponents

/-- JavaScript strings, modelled as lists of characters. -/
abbrev JStr := List Char

/-- Conversion from Lean string literals to the model's strings. -/
def toJStr (s : String) : JStr := s.data

/-! ### JavaScript primitives used by the components -/

/-- JS whitespace accepted by `parseInt` (space, tab, LF, CR, VT, FF). -/
def isJsSpace (c : Char) : Bool :=
  c = ' ' || c = '\t' || c = '\n' || c = '\r' || c = '\x0b' || c = '\x0c'

/-- Decimal digit value of a character, if any (ASCII 48-57). -/
def decDigit (c : Char) : Option Nat :=
  let n := c.toNat
  if 48 ≤ n ∧ n ≤ 57 then some (n - 48) else none

/-- Hexadecimal digit value of a character, if any (ASCII digits,
`a`-`f` = 97-102, `A`-`F` = 65-70). -/
def hexDigit (c : Char) : Option Nat :=
  let n := c.toNat
  if 48 ≤ n ∧ n ≤ 57 then some (n - 48)
  else if 97 ≤ n ∧ n ≤ 102 then some (n - 87)
  else if 65 ≤ n ∧ n ≤ 70 then some (n - 55)
  else none

/-- Accumulate the value of the longest run of leading digits. -/
def digitsValue (f : Char → Option Nat) (base : Nat) : JStr → Nat → Nat
  | [], acc => acc
  | c :: rest, acc =>
    match f c with
    | some d => digitsValue f base rest (acc * base + d)
    | none => acc

/-- Parse a digit string in the given base; `none` when no leading digit. -/
def parseDigitRun (f : Char → Option Nat) (base : Nat) (sign : Int)
    (s : JStr) : Option Int :=
  match s with
  | [] => none
  | c :: _ =>
    match f c with
    | some _ => some (sign * (digitsValue f base s 0 : Nat))
    | none => none

/-- JS `parseInt(str)` with no radix argument: skip whitespace, optional
sign, `0x`/`0X` hexadecimal prefix, then the longest run of digits;
`none` models `NaN`. -/
def jsParseInt (s : JStr) : Option Int :=
  let s1 := s.dropWhile isJsSpace
  let signAndRest : Int × JStr :=
    match s1 with
    | '-' :: r => (-1, r)
    | '+' :: r => (1, r)
    | _ => (1, s1)
  match signAndRest.2 with
  | '0' :: 'x' :: r => parseDigitRun hexDigit 16 signAndRest.1 r
  | '0' :: 'X' :: r => parseDigitRun hexDigit 16 signAndRest.1 r
  | s2 => parseDigitRun decDigit 10 signAndRest.1 s2

/-- JS `str.slice(0, e)`: a negative end index counts from the end of the
string; the result is always a prefix. -/
def jsSliceFrom0 (s : JStr) (e : Int) : JStr :=
  if e < 0 then s.take ((s.length : Int) + e).toNat else s.take e.toNat

/-! ### Text-area component (`rc-text-area`) -/

/-- `get maxChars() { return parseInt(this.getAttribute('max-chars')) || 280; }`:
an absent attribute gives `parseInt(null) = NaN`; `NaN` and `0` are falsy,
so both fall back to `280`. -/
def maxCharsOf (attr : Option JStr) : Int :=
  match attr with
  | none => 280
  | some a =>
    match jsParseInt a with
    | none => 280
    | some n => if n = 0 then 280 else n

/-- State of one mounted `rc-text-area`.  `textareaValue` is the inner
`<textarea>`'s value; `storage` is the localStorage entry under the
configured `storage-key`; `pendingSave` records an armed debounce timer. -/
structure TextAreaState where
  textareaValue : JStr
  valueAttr : Option JStr
  maxCharsAttr : Option JStr
  storageKeyAttr : Option JStr
  limitReachedFired : Bool
  pendingSave : Bool
  storage : Option JStr
deriving DecidableEq

/-- `get value()` returns the inner textarea's value. -/
def TextAreaState.value (s : TextAreaState) : JStr := s.textareaValue

/-- `get maxChars()`. -/
def TextAreaState.maxChars (s : TextAreaState) : Int := maxCharsOf s.maxCharsAttr

/-- `get charCount()`. -/
def TextAreaState.charCount (s : TextAreaState) : Nat := s.textareaValue.length

/-- `get charsRemaining() { return this.maxChars - this.charCount; }`. -/
def TextAreaState.charsRemaining (s : TextAreaState) : Int :=
  s.maxChars - (s.charCount : Int)

/-- Events dispatched by the text-area. -/
inductive TAEvent where
  | inputEvent (value : JStr) (charCount : Nat)
  | limitReached (value : JStr) (maxChars : Int)
deriving DecidableEq

/-- `_handleInput()`: truncate over-length input, re-render, schedule the
debounced save, dispatch `input`, then edge-detect the limit: fire
`limitReached` once when `charCount >= maxChars` and the flag is unset;
re-arm the flag when `charCount < maxChars`. -/
def handleInput (s : TextAreaState) (rawInput : JStr) : TextAreaState × List TAEvent :=
  let mx := s.maxChars
  let v := if (rawInput.length : Int) > mx then jsSliceFrom0 rawInput mx else rawInput
  let s1 : TextAreaState := { s with textareaValue := v, pendingSave := true }
  let evInput := TAEvent.inputEvent v v.length
  if (v.length : Int) ≥ mx ∧ s1.limitReachedFired = false then
    ({ s1 with limitReachedFired := true }, [evInput, TAEvent.limitReached v mx])
  else if (v.length : Int) < mx then
    ({ s1 with limitReachedFired := false }, [evInput])
  else
    (s1, [evInput])

/-- `set value(newValue)`: writes the textarea, reflects the attribute,
re-renders and schedules the debounced save.  It performs no truncation
and leaves `_limitReachedFired` untouched. -/
def setValue (s : TextAreaState) (v : JStr) : TextAreaState :=
  { s with textareaValue := v, valueAttr := some v, pendingSave := true }

/-- `clear()`: `this.value = ''` (which schedules a debounced save), then an
immediate `localStorage.removeItem(this.storageKey)` guarded by
`if (this.storageKey)` — a JS truthiness test, falsy (so the removal is
skipped) both when the attribute is absent and when it is the empty
string. -/
def clear (s : TextAreaState) : TextAreaState :=
  let s1 := setValue s []
  match s1.storageKeyAttr with
  | some k => if k.isEmpty then s1 else { s1 with storage := none }
  | none => s1

/-- The armed debounce timer elapses: the inner `_saveToStorage` runs; its
`if (this.storageKey)` truthiness guard writes the current value under the
storage key only when the attribute is present and non-empty (the empty
string is falsy, so no `setItem` happens for it). -/
def fireDebounce (s : TextAreaState) : TextAreaState :=
  if s.pendingSave then
    match s.storageKeyAttr with
    | some k =>
      if k.isEmpty then { s with pendingSave := false }
      else { s with pendingSave := false, storage := some s.textareaValue }
    | none => { s with pendingSave := false }
  else s

/-- State after `document.createElement('rc-text-area')` with the given
`max-chars` / `storage-key` attributes, mounting, and `connectedCallback`:
the `max-chars` attribute defaults to `"280"`, and `_loadFromStorage`
hydrates the textarea from the store when its `if (this.storageKey)`
truthiness guard passes — the key must be present *and* non-empty (the
empty string is falsy, so no hydration happens for it) — and the entry
exists. -/
def initTextArea (maxAttr storageAttr : Option JStr) (stored : Option JStr) :
    TextAreaState :=
  { textareaValue :=
      match storageAttr, stored with
      | some k, some sv => if k.isEmpty then [] else sv
      | _, _ => []
    valueAttr := none
    maxCharsAttr := some (maxAttr.getD (toJStr "280"))
    storageKeyAttr := storageAttr
    limitReachedFired := false
    pendingSave := false
    storage := match storageAttr with | some _ => stored | none => none }

/-- External stimuli of a mounted text-area. -/
inductive TAAction where
  | input (text : JStr)
  | setVal (text : JStr)
  | doClear
  | debounceFire
deriving DecidableEq

/-- One stimulus step, returning the new state and the dispatched events. -/
def taStep (s : TextAreaState) (a : TAAction) : TextAreaState × List TAEvent :=
  match a with
  | .input t => handleInput s t
  | .setVal t => (setValue s t, [])
  | .doClear => (clear s, [])
  | .debounceFire => (fireDebounce s, [])

/-- Run a sequence of stimuli, concatenating the dispatched events. -/
def taRun (s : TextAreaState) : List TAAction → TextAreaState × List TAEvent
  | [] => (s, [])
  | a :: rest =>
    let p := taStep s a
    let q := taRun p.1 rest
    (q.1, p.2 ++ q.2)

/-- Recognize `limitReached` events. -/
def isLimitEvent : TAEvent → Bool
  | .limitReached _ _ => true
  | _ => false

/-- Number of `limitReached` events in a dispatch list. -/
def limitCount (evs : List TAEvent) : Nat := (evs.filter isLimitEvent).length

/-! ### Voting component (`rc-agile-voting`) -/

/-- JS `str.split(',')`: splitting the empty string yields `[""]`. -/
def splitComma : JStr → List JStr
  | [] => [[]]
  | c :: rest =>
    let r := splitComma rest
    if c = ',' then [] :: r
    else
      match r with
      | [] => [[c]]
      | h :: t => (c :: h) :: t

/-- Inline `style.display` of one of the two views.  The stylesheet gives
`#form` `display:flex` and leaves `#info` at the default block display, so
with an unset inline style both views are rendered. -/
inductive Display where
  | unset
  | flex
  | hidden
deriving DecidableEq

/-- A view is visible unless its inline style is `display:none`. -/
def Display.visible : Display → Bool
  | .hidden => false
  | _ => true

/-- State of one `rc-agile-voting` element: the observed attributes, the
`<select>`'s option list and current selection, the two views' inline
display styles, and the text projected into the info view. -/
structure VotingState where
  valueAttr : Option JStr
  valuesAttr : Option JStr
  options : List JStr
  selectorValue : JStr
  infoDisplay : Display
  formDisplay : Display
  valueInfoHTML : JStr
deriving DecidableEq

/-- `get value() { return this.getAttribute('value') || ''; }`. -/
def VotingState.value (s : VotingState) : JStr :=
  match s.valueAttr with
  | none => []
  | some v => v

/-- `ensureFormShownIfNoValueSet()`: show the info view and hide the form
when `value != ''`, otherwise the inverse. -/
def ensureFormShownIfNoValueSet (s : VotingState) : VotingState :=
  if s.value ≠ [] then
    { s with infoDisplay := .flex, formDisplay := .hidden }
  else
    { s with infoDisplay := .hidden, formDisplay := .flex }

/-- `render()`: toggle the views, then project `value` into `#value`. -/
def renderVoting (s : VotingState) : VotingState :=
  let s1 := ensureFormShownIfNoValueSet s
  { s1 with valueInfoHTML := s1.value }

/-- Events dispatched by the voting component. -/
inductive VEvent where
  | valueChanged (detail : JStr)
deriving DecidableEq

/-- `set value(newValue)`: reflect the attribute, re-render, and dispatch
`valueChanged` with the new value as detail — unconditionally, with no
comparison against the previous value. -/
def setVotingValue (s : VotingState) (v : JStr) : VotingState × List VEvent :=
  let s1 := renderVoting { s with valueAttr := some v }
  (s1, [VEvent.valueChanged v])

/-- `DefineOptions(values)`: rebuild the `<select>`'s options; the browser
then selects the first option by default. -/
def defineOptions (s : VotingState) (vs : List JStr) : VotingState :=
  { s with options := vs, selectorValue := vs.headD [] }

/-- `set values(newValues)`: reflect the attribute, split on commas,
rebuild the options, re-render. -/
def setVotingValues (s : VotingState) (v : JStr) : VotingState :=
  renderVoting (defineOptions { s with valuesAttr := some v } (splitComma v))

/-- The user picks an entry in the `<select>`: assigning a value with no
matching option leaves the selection empty. -/
def selectOption (s : VotingState) (v : JStr) : VotingState :=
  if v ∈ s.options then { s with selectorValue := v }
  else { s with selectorValue := [] }

/-- State of a freshly constructed, not-yet-connected instance: the cloned
template has empty inline display styles on both views and no attributes. -/
def freshVoting : VotingState :=
  { valueAttr := none
    valuesAttr := none
    options := []
    selectorValue := []
    infoDisplay := .unset
    formDisplay := .unset
    valueInfoHTML := [] }

/-- `connectedCallback()` on an instance created with the given `value` and
`values` attributes: default the `value` attribute to `''`, feed the
`values` setter either the attribute or the built-in default list
`'XS,S,M,L,XL,plop'`, then render. -/
def connectVoting (valueAttr valuesAttr : Option JStr) : VotingState :=
  let s0 := { freshVoting with valueAttr := valueAttr, valuesAttr := valuesAttr }
  let s1 :=
    match s0.valueAttr with
    | none => { s0 with valueAttr := some [] }
    | some _ => s0
  let s2 :=
    match s1.valuesAttr with
    | none => setVotingValues s1 (toJStr "XS,S,M,L,XL,plop")
    | some a => setVotingValues s1 a
  renderVoting s2

/-- External stimuli of a connected voting component: the `value` setter,
the `values` setter, picking an option, the vote button
(`setValueFromCombo`), the reset icon (`resetValue`), and a direct
`DefineOptions` call. -/
inductive VAction where
  | setVal (v : JStr)
  | setVals (v : JStr)
  | pick (v : JStr)
  | vote
  | reset
  | defineOpts (vs : List JStr)
deriving DecidableEq

/-- One stimulus step of the voting component. -/
def vStep (s : VotingState) (a : VAction) : VotingState × List VEvent :=
  match a with
  | .setVal v => setVotingValue s v
  | .setVals v => (setVotingValues s v, [])
  | .pick v => (selectOption s v, [])
  | .vote => setVotingValue s s.selectorValue
  | .reset => setVotingValue s []
  | .defineOpts vs => (defineOptions s vs, [])

/-- Run a sequence of stimuli on the voting component. -/
def vRun (s : VotingState) : List VAction → VotingState × List VEvent
  | [] => (s, [])
  | a :: rest =>
    let p := vStep s a
    let q := vRun p.1 rest
    (q.1, p.2 ++ q.2)

/-- Mutual-exclusivity invariant of the two views: the info view is visible
exactly when `value` is non-empty and the form view exactly when it is
empty, so exactly one of the two is visible. -/
abbrev viewInvariant (s : VotingState) : Prop :=
  (s.infoDisplay.visible = true ↔ s.value ≠ []) ∧
  (s.formDisplay.visible = true ↔ s.value = [])

/-! ### Example states used to instantiate the theorems -/

/-- A text-area mounted with `max-chars="5"` and no storage key. -/
def exC2Start : TextAreaState := initTextArea (some (toJStr "5")) none none

/-- `exC2Start` after typing `"Hello"`: the limit notification has fired. -/
def exC2AfterFire : TextAreaState := (handleInput exC2Start (toJStr "Hello")).1

/-- `exC2AfterFire` after the programmatic `value = ''`: the character count
dropped below the limit through the setter. -/
def exC2Dropped : TextAreaState := setValue exC2AfterFire []

/-- A text-area mounted with `max-chars="5"` and `storage-key="test-storage"`. -/
def exTA5 : TextAreaState :=
  initTextArea (some (toJStr "5")) (some (toJStr "test-storage")) none

/-- `exTA5` after typing `"Hello"`: at the limit, notification fired. -/
def exTA5AtLimit : TextAreaState := (handleInput exTA5 (toJStr "Hello")).1

/-- `exTA5AtLimit` after `clear()`. -/
def exTA5Cleared : TextAreaState := clear exTA5AtLimit

/-- A text-area mounted with `max-chars="-5"`. -/
def exNegMax : TextAreaState := initTextArea (some (toJStr "-5")) none none

/-- A `max-chars="5"` text-area after the programmatic
`value = 'Hello World'`, which performs no truncation. -/
def exC9 : TextAreaState :=
  setValue (initTextArea (some (toJStr "5")) none none) (toJStr "Hello World")

/-- A text-area mounted with `storage-key="draft-key"` while the store
already holds `"Previously saved"` under that key. -/
def exHydrated : TextAreaState :=
  initTextArea (some (toJStr "280")) (some (toJStr "draft-key"))
    (some (toJStr "Previously saved"))

/-! ### Helper lemmas -/

/-- Length of a JS prefix slice. -/
theorem length_jsSliceFrom0 (s : JStr) (e : Int) :
    (jsSliceFrom0 s e).length =
      min (if e < 0 then ((s.length : Int) + e).toNat else e.toNat) s.length := by
  unfold jsSliceFrom0
  split <;> simp [List.length_take]

/-- The textarea value after `_handleInput` is the truncated input. -/
theorem handleInput_fst_value (s : TextAreaState) (raw : JStr) :
    (handleInput s raw).1.textareaValue =
      if (raw.length : Int) > s.maxChars then jsSliceFrom0 raw s.maxChars else raw := by
  simp only [handleInput]
  split <;> split <;> first | rfl | (split <;> rfl)

/-- No step of the text-area changes the `max-chars` attribute. -/
theorem taStep_maxCharsAttr (s : TextAreaState) (a : TAAction) :
    (taStep s a).1.maxCharsAttr = s.maxCharsAttr := by
  cases a with
  | input t =>
    simp only [taStep, handleInput]
    split <;> split <;> first | rfl | (split <;> rfl)
  | setVal t => rfl
  | doClear =>
    simp only [taStep, clear, setValue]
    split <;> first | rfl | (split <;> rfl)
  | debounceFire =>
    simp only [taStep, fireDebounce]
    split <;> first | rfl | (split <;> first | rfl | (split <;> rfl))

/-- No step of the text-area changes `maxChars`. -/
theorem taStep_maxChars (s : TextAreaState) (a : TAAction) :
    (taStep s a).1.maxChars = s.maxChars := by
  unfold TextAreaState.maxChars
  rw [taStep_maxCharsAttr]

/-- Inputs whose text is shorter than the ceiling re-arm the limit
detector; nothing else does. -/
def rearmingInput (mx : Int) : TAAction → Bool
  | .input t => decide ((t.length : Int) < mx)
  | _ => false

/-- `limitCount` is additive over appended dispatch lists. -/
theorem limitCount_append (evs₁ evs₂ : List TAEvent) :
    limitCount (evs₁ ++ evs₂) = limitCount evs₁ + limitCount evs₂ := by
  simp [limitCount, List.filter_append]

/-- After truncation the character count never ends up strictly below the
ceiling unless the raw input was already below it. -/
theorem truncated_not_below (s : TextAreaState) (t : JStr)
    (ht : ¬ ((t.length : Int) < s.maxChars)) :
    ¬ (((if (t.length : Int) > s.maxChars then jsSliceFrom0 t s.maxChars else t).length : Int)
        < s.maxChars) := by
  split
  · rw [length_jsSliceFrom0]
    split <;> omega
  · exact ht

/-- Once the limit notification has fired, a step that is not a below-limit
input dispatches no `limitReached` and leaves the detector set. -/
theorem taStep_no_fire (s : TextAreaState) (a : TAAction)
    (hf : s.limitReachedFired = true)
    (ha : rearmingInput s.maxChars a = false) :
    limitCount (taStep s a).2 = 0 ∧ (taStep s a).1.limitReachedFired = true := by
  cases a with
  | input t =>
    simp only [rearmingInput, decide_eq_false_iff_not] at ha
    have hvlen := truncated_not_below s t ha
    simp only [taStep, handleInput]
    split <;> rename_i hgt
    · rw [if_pos hgt] at hvlen
      rw [if_neg (by simp [hf]), if_neg hvlen]
      exact ⟨rfl, hf⟩
    · rw [if_neg hgt] at hvlen
      rw [if_neg (by simp [hf])]
      exact ⟨rfl, hf⟩
  | setVal t => exact ⟨rfl, hf⟩
  | doClear =>
    simp only [taStep, clear, setValue]
    split <;> first
      | exact ⟨rfl, hf⟩
      | (split <;> exact ⟨rfl, hf⟩)
  | debounceFire =>
    simp only [taStep, fireDebounce]
    split <;> first
      | exact ⟨rfl, hf⟩
      | (split <;> first
          | exact ⟨rfl, hf⟩
          | (split <;> exact ⟨rfl, hf⟩))

/-- `render()` leaves the voting component's `value` unchanged. -/
theorem renderVoting_value (s : VotingState) : (renderVoting s).value = s.value := by
  simp only [renderVoting, ensureFormShownIfNoValueSet]
  split <;> rfl

/-- `set values(...)` leaves the voting component's `value` unchanged. -/
theorem setVotingValues_value (s : VotingState) (v : JStr) :
    (setVotingValues s v).value = s.value := by
  simp only [setVotingValues]
  rw [renderVoting_value]
  rfl

/-- Any rendered state satisfies the view invariant. -/
theorem viewInvariant_renderVoting (s : VotingState) :
    viewInvariant (renderVoting s) := by
  simp only [renderVoting, ensureFormShownIfNoValueSet]
  split
  · rename_i h
    exact ⟨by simpa [Display.visible, VotingState.value] using h,
           by simpa [Display.visible, VotingState.value] using h⟩
  · rename_i h
    rw [not_not] at h
    exact ⟨by simpa [Display.visible, VotingState.value] using h,
           by simpa [Display.visible, VotingState.value] using h⟩

/-- Every stimulus step of the voting component preserves the view
invariant. -/
theorem viewInvariant_vStep (s : VotingState) (a : VAction)
    (hs : viewInvariant s) : viewInvariant (vStep s a).1 := by
  cases a with
  | setVal v => exact viewInvariant_renderVoting _
  | setVals v => exact viewInvariant_renderVoting _
  | pick v =>
    simp only [vStep, selectOption]
    split <;> exact hs
  | vote => exact viewInvariant_renderVoting _
  | reset => exact viewInvariant_renderVoting _
  | defineOpts vs => exact hs

/-- The view invariant is preserved along any run. -/
theorem viewInvariant_vRun (s : VotingState) (as : List VAction)
    (hs : viewInvariant s) : viewInvariant (vRun s as).1 := by
  induction as generalizing s with
  | nil => exact hs
  | cons a rest ih => exact ih (vStep s a).1 (viewInvariant_vStep s a hs)

/-- The voting component's `value` right after connection: the pre-set
`value` attribute if any, else the empty string. -/
theorem connectVoting_value (va vs : Option JStr) :
    (connectVoting va vs).value = va.getD [] := by
  cases va <;> cases vs <;>
    (simp only [connectVoting]
     rw [renderVoting_value, setVotingValues_value]
     rfl)

/-! ### Claims -/

/-- C1: for the text-area, any input longer than `maxChars` processed by
`_handleInput` leaves the stored/displayed value equal to the first
`maxChars` characters of the input, so its length is exactly `maxChars`;
the overflow is dropped silently (the operation is total — no error). -/
theorem C1_truncation_law (s : TextAreaState) (rawInput : JStr)
    (hmax : 1 ≤ s.maxChars) (hlen : (rawInput.length : Int) > s.maxChars) :
    (handleInput s rawInput).1.value = rawInput.take s.maxChars.toNat ∧
    (((handleInput s rawInput).1.value.length : Int) = s.maxChars) := by
  have hval := handleInput_fst_value s rawInput
  rw [if_pos hlen] at hval
  have hslice : jsSliceFrom0 rawInput s.maxChars = rawInput.take s.maxChars.toNat := by
    unfold jsSliceFrom0
    rw [if_neg (by omega)]
  rw [hslice] at hval
  refine ⟨hval, ?_⟩
  simp only [TextAreaState.value]
  rw [hval, List.length_take]
  omega

/-- Witness for C1: `max-chars="10"` with the test input
`"This is way too long"` truncates to `"This is wa"`. -/
theorem C1_truncation_law_witness :
    1 ≤ (initTextArea (some (toJStr "10")) none none).maxChars ∧
    ((toJStr "This is way too long").length : Int) >
      (initTextArea (some (toJStr "10")) none none).maxChars ∧
    (handleInput (initTextArea (some (toJStr "10")) none none)
        (toJStr "This is way too long")).1.value = toJStr "This is wa" :=
  ⟨by decide, by decide,
    (C1_truncation_law (initTextArea (some (toJStr "10")) none none)
        (toJStr "This is way too long") (by decide) (by decide)).1.trans (by decide)⟩

/-- C2 counterexample: after `limitReached` fires at `max-chars="5"`, a drop
below the limit through the programmatic value setter does *not* re-arm the
detector: typing `"Hello"` again reaches the limit but dispatches no second
`limitReached`, contrary to the claim that any drop re-arms it. -/
theorem C2_counterexample_setter_drop_no_rearm :
    limitCount (handleInput exC2Start (toJStr "Hello")).2 = 1 ∧
    exC2AfterFire.limitReachedFired = true ∧
    (exC2Dropped.charCount : Int) < exC2Dropped.maxChars ∧
    (handleInput exC2Dropped (toJStr "Hello")).1.charCount = 5 ∧
    limitCount (handleInput exC2Dropped (toJStr "Hello")).2 = 0 := by decide

/-- C2 (amended): `limitReached` fires at most once per contiguous run
at/above `maxChars`: once the detector is set, no step dispatches another
`limitReached` until an *input event* whose text is shorter than `maxChars`
is processed — a drop below the limit through the programmatic value setter
or `clear()` does not re-arm the detector. -/
theorem C2_limit_fires_once_per_run (s : TextAreaState) (as : List TAAction)
    (hf : s.limitReachedFired = true)
    (h : ∀ a ∈ as, rearmingInput s.maxChars a = false) :
    limitCount (taRun s as).2 = 0 ∧ (taRun s as).1.limitReachedFired = true := by
  induction as generalizing s with
  | nil => exact ⟨rfl, hf⟩
  | cons a rest ih =>
    have h1 := taStep_no_fire s a hf (h a (List.mem_cons_self a rest))
    have hmx := taStep_maxChars s a
    have h2 := ih (taStep s a).1 h1.2 (fun b hb => by
      rw [hmx]
      exact h b (List.mem_cons_of_mem a hb))
    simp only [taRun]
    exact ⟨by rw [limitCount_append, h1.1, h2.1], h2.2⟩

/-- Witness for the amended C2: with the detector set, a programmatic
reset, a `clear()` and a debounce tick dispatch no `limitReached`. -/
theorem C2_limit_fires_once_per_run_witness :
    exC2AfterFire.limitReachedFired = true ∧
    limitCount (taRun exC2AfterFire
      [TAAction.setVal [], TAAction.doClear, TAAction.debounceFire]).2 = 0 :=
  ⟨by decide,
    (C2_limit_fires_once_per_run exC2AfterFire
      [TAAction.setVal [], TAAction.doClear, TAAction.debounceFire]
      (by decide) (by decide)).1⟩

/-- C3 counterexample: in a freshly constructed, not-yet-connected voting
instance the constructor has not rendered, both views' inline display
styles are unset, and with the template's stylesheet both views are
visible at once — while `value` is the empty string. -/
theorem C3_counterexample_fresh_instance_both_views :
    freshVoting.value = [] ∧
    freshVoting.infoDisplay.visible = true ∧
    freshVoting.formDisplay.visible = true := by decide

/-- C3 (amended): from connection onwards — after `connectedCallback` and
any sequence of value/values sets, option picks, votes, resets and
`DefineOptions` calls — exactly one of the two views is visible: the info
view exactly when `value` is non-empty and the form view exactly when it
is empty. -/
theorem C3_views_exclusive_after_connection (va vs : Option JStr)
    (as : List VAction) :
    viewInvariant (vRun (connectVoting va vs) as).1 := by
  apply viewInvariant_vRun
  cases va <;> cases vs <;> exact viewInvariant_renderVoting _

/-- C4 counterexample: on a component whose `value` is already `"XS"`,
setting `value = "XS"` again dispatches a `valueChanged` event all the
same, contrary to the claim that an unchanged value dispatches nothing. -/
theorem C4_counterexample_same_value_still_dispatches :
    (connectVoting (some (toJStr "XS")) none).value = toJStr "XS" ∧
    (setVotingValue (connectVoting (some (toJStr "XS")) none) (toJStr "XS")).2 =
      [VEvent.valueChanged (toJStr "XS")] := by decide

/-- C4 (amended): the voting value setter *always* dispatches exactly one
`valueChanged` event carrying the new value as payload, whether or not the
new value differs from the old one; it performs no old/new comparison. -/
theorem C4_setter_always_dispatches (s : VotingState) (v : JStr) :
    (setVotingValue s v).2 = [VEvent.valueChanged v] ∧
    (setVotingValue s v).1.value = v := by
  refine ⟨rfl, ?_⟩
  show (renderVoting { s with valueAttr := some v }).value = v
  rw [renderVoting_value]
  rfl

/-- C5: a voting component connected without a `values` attribute builds
six options ending in the leftover `"plop"` entry, not the five t-shirt
sizes the spec and the repository's own test (`should have default voting
options`, expecting 5 options) describe. -/
theorem C5_default_options_contain_plop :
    (connectVoting none none).options =
      [toJStr "XS", toJStr "S", toJStr "M", toJStr "L", toJStr "XL",
        toJStr "plop"] ∧
    (connectVoting none none).options ≠
      [toJStr "XS", toJStr "S", toJStr "M", toJStr "L", toJStr "XL"] := by decide

/-- C6 counterexample: `clear()` does not reset the limit-notification edge
detector: after the limit fired, `clear()` leaves `_limitReachedFired`
set, so an immediately following rise back to the limit dispatches no
`limitReached`, contrary to the claim. -/
theorem C6_counterexample_clear_keeps_detector :
    exTA5AtLimit.limitReachedFired = true ∧
    exTA5Cleared.value = [] ∧
    exTA5Cleared.storage = none ∧
    exTA5Cleared.limitReachedFired = true ∧
    limitCount (handleInput exTA5Cleared (toJStr "Hello")).2 = 0 := by decide

/-- C6 (amended): with a configured, non-empty `storageKey` (the source's
`if (this.storageKey)` guard is falsy for the empty string), `clear()`
leaves `value` empty and deletes the stored key immediately (not
debounced), but it leaves the limit-notification edge detector exactly as
it was — only a later input event below the limit re-arms it. -/
theorem C6_clear_empties_and_removes (s : TextAreaState) (k : JStr)
    (h : s.storageKeyAttr = some k) (hk : k ≠ []) :
    (clear s).value = [] ∧ (clear s).storage = none ∧
    (clear s).limitReachedFired = s.limitReachedFired := by
  have he : k.isEmpty = false := by
    cases k
    · exact absurd rfl hk
    · rfl
  simp only [clear, setValue]
  split
  · rename_i k2 heq
    have h2 : s.storageKeyAttr = some k2 := heq
    rw [h] at h2
    injection h2 with hk2
    subst hk2
    rw [if_neg (by simp [he])]
    exact ⟨rfl, rfl, rfl⟩
  · rename_i heq
    have hn : s.storageKeyAttr = none := heq
    rw [hn] at h
    exact absurd h (by simp)

/-- Witness for the amended C6 at a concrete at-limit state with the
non-empty key `"test-storage"`. -/
theorem C6_clear_empties_and_removes_witness :
    exTA5AtLimit.storageKeyAttr = some (toJStr "test-storage") ∧
    (clear exTA5AtLimit).value = [] ∧ (clear exTA5AtLimit).storage = none :=
  ⟨by decide,
    (C6_clear_empties_and_removes exTA5AtLimit (toJStr "test-storage")
      (by decide) (by decide)).1,
    (C6_clear_empties_and_removes exTA5AtLimit (toJStr "test-storage")
      (by decide) (by decide)).2.1⟩

/-- C7 counterexample: a text-area mounted with `storage-key="draft-key"`
over a store holding `"Previously saved"` reads that draft back before any
assignment and before any `value` attribute is set — the pre-assignment
read is not the empty string. -/
theorem C7_counterexample_hydrated_draft :
    exHydrated.value = toJStr "Previously saved" ∧
    exHydrated.value ≠ [] := by decide

/-- C7 (amended): for both components, setting `value = v` then reading
`value` returns exactly `v`; pre-assignment reads return the empty string
(fresh or connected voting component without a `value` attribute, text-area
without a stored draft) — except that a text-area with a configured
*non-empty* `storage-key` over an existing entry hydrates that draft on
connection and then reads it back (an empty `storage-key` attribute is
falsy for `_loadFromStorage`'s guard and behaves like no key, so its
pre-assignment read is still empty). `value` is a total string-valued
function, never null/undefined. -/
theorem C7_value_roundtrip :
    (∀ (s : TextAreaState) (v : JStr), (setValue s v).value = v) ∧
    (∀ (s : VotingState) (v : JStr), (setVotingValue s v).1.value = v) ∧
    freshVoting.value = [] ∧
    (∀ vs : Option JStr, (connectVoting none vs).value = []) ∧
    (∀ ma sk : Option JStr, (initTextArea ma sk none).value = []) ∧
    (∀ (ma : Option JStr) (k d : JStr), k ≠ [] →
      (initTextArea ma (some k) (some d)).value = d) ∧
    (∀ (ma : Option JStr) (d : JStr),
      (initTextArea ma (some []) (some d)).value = []) := by
  refine ⟨fun s v => rfl, fun s v => ?_, rfl, fun vs => ?_, fun ma sk => ?_,
    fun ma k d hk => ?_, fun ma d => rfl⟩
  · show (renderVoting { s with valueAttr := some v }).value = v
    rw [renderVoting_value]
    rfl
  · rw [connectVoting_value]
    rfl
  · cases sk <;> rfl
  · cases k with
    | nil => exact absurd rfl hk
    | cons c cs => rfl

/-- Witness for the amended C7: the non-empty key `"draft-key"` hydrates
the stored draft into the pre-assignment read. -/
theorem C7_value_roundtrip_witness :
    toJStr "draft-key" ≠ [] ∧
    (initTextArea (some (toJStr "280")) (some (toJStr "draft-key"))
      (some (toJStr "Previously saved"))).value = toJStr "Previously saved" :=
  ⟨by decide,
    C7_value_roundtrip.2.2.2.2.2.1 (some (toJStr "280")) (toJStr "draft-key")
      (toJStr "Previously saved") (by decide)⟩

/-- C8 counterexample: the attribute `max-chars="-5"` parses to `-5`, a
truthy number, so the `maxChars` getter returns `-5 < 1`, contrary to the
claim that it always returns an integer of at least 1. -/
theorem C8_counterexample_negative_maxchars :
    exNegMax.maxChars = -5 ∧ exNegMax.maxChars < 1 := by decide

/-- C8 (amended): `maxChars` falls back to the default 280 when the
attribute is absent or non-numeric (and when it parses to 0, since 0 is
falsy), and the getter never returns 0; but a numeric attribute is
returned as parsed, sign included, so the result can be negative and is
not guaranteed to be at least 1. -/
theorem C8_maxchars_normalization :
    maxCharsOf none = 280 ∧
    (∀ a : JStr, jsParseInt a = none → maxCharsOf (some a) = 280) ∧
    (∀ sk st : Option JStr, (initTextArea none sk st).maxChars = 280) ∧
    (∀ s : TextAreaState, s.maxChars ≠ 0) := by
  refine ⟨rfl, fun a ha => ?_, fun sk st => rfl, fun s => ?_⟩
  · simp [maxCharsOf, ha]
  · unfold TextAreaState.maxChars maxCharsOf
    cases s.maxCharsAttr with
    | none => decide
    | some a =>
      dsimp only
      cases jsParseInt a with
      | none => decide
      | some n =>
        dsimp only
        split
        · decide
        · assumption

/-- Witness for the amended C8: the non-numeric attribute `"abc"` falls
back to 280. -/
theorem C8_maxchars_normalization_witness :
    jsParseInt (toJStr "abc") = none ∧ maxCharsOf (some (toJStr "abc")) = 280 :=
  ⟨by decide, C8_maxchars_normalization.2.1 (toJStr "abc") (by decide)⟩

/-- C9 counterexample: the programmatic value setter performs no
truncation, so on a `max-chars="5"` text-area, `value = "Hello World"`
leaves `charsRemaining = -6`, a negative value reported to the consumer,
contrary to the claim quantifying over programmatic sets. -/
theorem C9_counterexample_programmatic_overflow :
    exC9.charsRemaining = -6 ∧ exC9.charsRemaining < 0 := by decide

/-- C9 (amended): `charsRemaining` is `maxChars - charCount`, and after any
*input event* it is non-negative (input is truncated first, for any
non-negative `maxChars`); but a programmatic value set can push it
negative. -/
theorem C9_chars_remaining_nonneg (s : TextAreaState) (t : JStr)
    (hmax : 0 ≤ s.maxChars) :
    s.charsRemaining = s.maxChars - (s.charCount : Int) ∧
    0 ≤ (handleInput s t).1.charsRemaining := by
  refine ⟨rfl, ?_⟩
  have hval := handleInput_fst_value s t
  have hattr : (handleInput s t).1.maxChars = s.maxChars :=
    taStep_maxChars s (TAAction.input t)
  unfold TextAreaState.charsRemaining
  rw [hattr]
  unfold TextAreaState.charCount
  rw [hval]
  split
  · rename_i hgt
    rw [length_jsSliceFrom0]
    rw [if_neg (by omega)]
    omega
  · rename_i hle
    omega

/-- Witness for the amended C9 at `max-chars="5"` with an over-long
input. -/
theorem C9_chars_remaining_nonneg_witness :
    0 ≤ exC2Start.maxChars ∧
    0 ≤ (handleInput exC2Start (toJStr "Hello World")).1.charsRemaining :=
  ⟨by decide,
    (C9_chars_remaining_nonneg exC2Start (toJStr "Hello World") (by decide)).2⟩

/-- C10: with a configured, non-empty `storageKey` (the truthiness guards
`if (this.storageKey)` are falsy for the empty string), `clear()` deletes
the stored key immediately but also (through the value setter) arms the
debounce timer; when that timer fires with no further input, the inner
`_saveToStorage` re-creates the entry under `storageKey` with the
now-empty value — the key does not remain deleted. -/
theorem C10_debounced_save_recreates_key (s : TextAreaState) (k : JStr)
    (h : s.storageKeyAttr = some k) (hk : k ≠ []) :
    (clear s).storage = none ∧ (clear s).pendingSave = true ∧
    (fireDebounce (clear s)).storage = some [] := by
  have he : k.isEmpty = false := by
    cases k
    · exact absurd rfl hk
    · rfl
  have hc : clear s =
      { s with
          textareaValue := []
          valueAttr := some []
          pendingSave := true
          storage := none } := by
    simp only [clear, setValue]
    split
    · rename_i k2 heq
      have h2 : s.storageKeyAttr = some k2 := heq
      rw [h] at h2
      injection h2 with hk2
      subst hk2
      rw [if_neg (by simp [he])]
    · rename_i heq
      have hn : s.storageKeyAttr = none := heq
      rw [hn] at h
      exact absurd h (by simp)
  rw [hc]
  refine ⟨rfl, rfl, ?_⟩
  simp [fireDebounce, h, he]

/-- Witness for C10 at a concrete at-limit state with the non-empty key
`"test-storage"`. -/
theorem C10_debounced_save_recreates_key_witness :
    exTA5AtLimit.storageKeyAttr = some (toJStr "test-storage") ∧
    (fireDebounce (clear exTA5AtLimit)).storage = some [] :=
  ⟨by decide,
    (C10_debounced_save_recreates_key exTA5AtLimit (toJStr "test-storage")
      (by decide) (by decide)).2.2⟩

end WebComponents
